import Mathlib

/-!
Verification of the WINDMAR weather-grid store and frontend helpers.

The data model follows `src/docker/migrations/001_weather_tables.sql`
(tables `weather_forecast_runs` and `weather_grid_data`) and the frontend
components under `src/frontend`.  The store layer itself (Python backend)
is not part of the provided sources, so its operations are modelled from
the spec (§4.1, §4.2, §4.3) and from the SQL schema; such definitions are
marked `Modelled from the spec:` in their doc comments.  Machine float32
values are represented by their 32-bit patterns (`Nat`), JS numbers by
rationals with an explicit non-finite marker where division by zero can
occur.
-/

/-- Errors of the weather store and cost model, from the spec's error
taxonomy (§7): `DuplicateRun`, `UnknownRun`, `InvalidShape`, `CorruptData`,
`NotFound`, plus `DuplicateSlice` for the SQL uniqueness constraint
`UNIQUE(run_id, forecast_hour, parameter)` and `InvalidSpeed` for the cost
model. -/
inductive StoreError where
  | DuplicateRun
  | UnknownRun
  | InvalidShape
  | CorruptData
  | NotFound
  | DuplicateSlice
  | InvalidSpeed
  deriving DecidableEq, Repr

/-- Modelled from the spec: the zlib compression of a float32 array
(column `lats BYTEA -- zlib-compressed float32 array` in
`001_weather_tables.sql`).  zlib is a lossless byte coder; we model it as
a run-length coder over 32-bit patterns, which shares the relevant
property: an exact, shape-preserving inverse. -/
def compress : List Nat → List (Nat × Nat)
  | [] => []
  | x :: xs =>
    match compress xs with
    | [] => [(x, 1)]
    | (y, n) :: rest => if x = y then (y, n + 1) :: rest else (x, 1) :: (y, n) :: rest

/-- Modelled from the spec: the inverse decompression of `compress`. -/
def decompressRaw : List (Nat × Nat) → List Nat
  | [] => []
  | (x, n) :: rest => List.replicate n x ++ decompressRaw rest

/-- Raw (uncompressed) grid slice content: the coordinate axes and the
row-major 2-D data array, all float32 samples given by their bit
patterns, as supplied by the external weather source (§6). -/
structure GridSliceRaw where
  lats : List Nat
  lons : List Nat
  data : List Nat
  deriving DecidableEq, Repr

/-- One stored record of `weather_grid_data`
(`001_weather_tables.sql` lines 22-33): zlib-compressed `lats`, `lons`,
`data` blobs plus the recorded shape `shape_rows`, `shape_cols`. -/
structure GridSliceStored where
  lats : List (Nat × Nat)
  lons : List (Nat × Nat)
  data : List (Nat × Nat)
  shape_rows : Nat
  shape_cols : Nat
  deriving DecidableEq, Repr

/-- Modelled from the spec: compression of one slice for persistence,
recording the shape from the axis lengths (§4.1 `writeSlice` compresses
and persists). -/
def compressSlice (x : GridSliceRaw) : GridSliceStored :=
  { lats := compress x.lats
    lons := compress x.lons
    data := compress x.data
    shape_rows := x.lats.length
    shape_cols := x.lons.length }

/-- Modelled from the spec: decompression of a stored slice;
`decompression must reproduce shape exactly or fail with CorruptData`
(§4.1). -/
def decompressSlice (s : GridSliceStored) : Except StoreError GridSliceRaw :=
  let la := decompressRaw s.lats
  let lo := decompressRaw s.lons
  let d := decompressRaw s.data
  if la.length = s.shape_rows ∧ lo.length = s.shape_cols ∧
      d.length = s.shape_rows * s.shape_cols then
    Except.ok { lats := la, lons := lo, data := d }
  else
    Except.error StoreError.CorruptData

/-- Run lifecycle status, column `status` of `weather_forecast_runs`:
`ingesting, complete, failed, superseded`. -/
inductive RunStatus where
  | ingesting
  | complete
  | failed
  | superseded
  deriving DecidableEq, Repr

/-- Bounding box `lat_min, lat_max, lon_min, lon_max` of
`weather_forecast_runs`. -/
structure BBox where
  lat_min : Rat
  lat_max : Rat
  lon_min : Rat
  lon_max : Rat
  deriving DecidableEq, Repr

/-- One row of `weather_forecast_runs` (`001_weather_tables.sql` lines
5-19): serial id, source, model run time, status, grid resolution,
bounding box and the recorded set of available forecast hours. -/
structure RunRec where
  runId : Nat
  source : String
  runTime : Nat
  status : RunStatus
  resolution : Rat
  bbox : BBox
  forecastHoursRec : List Nat
  deriving DecidableEq, Repr

/-- One row of `weather_grid_data` (`001_weather_tables.sql` lines
22-33): owning run (`run_id ... ON DELETE CASCADE`), forecast hour,
parameter name, and the compressed slice with its shape. -/
structure SliceRec where
  runId : Nat
  forecastHour : Nat
  parameter : String
  slice : GridSliceStored
  deriving DecidableEq, Repr

/-- The weather store state: the two tables plus the serial-id counter. -/
structure Store where
  runs : List RunRec
  slices : List SliceRec
  nextId : Nat
  deriving DecidableEq, Repr

/-- Two run rows collide exactly when they share the `UNIQUE(source,
run_time)` key of `weather_forecast_runs`. -/
def runKeyClash (a b : RunRec) : Prop :=
  a.source = b.source ∧ a.runTime = b.runTime

instance : DecidablePred fun p : RunRec × RunRec => runKeyClash p.1 p.2 := by
  intro p; unfold runKeyClash; infer_instance

instance (a b : RunRec) : Decidable (runKeyClash a b) := by
  unfold runKeyClash; infer_instance

/-- Two slice rows collide exactly when they share the `UNIQUE(run_id,
forecast_hour, parameter)` key of `weather_grid_data`. -/
def sliceKeyClash (a b : SliceRec) : Prop :=
  a.runId = b.runId ∧ a.forecastHour = b.forecastHour ∧ a.parameter = b.parameter

instance (a b : SliceRec) : Decidable (sliceKeyClash a b) := by
  unfold sliceKeyClash; infer_instance

/-- The uniqueness invariant of `weather_forecast_runs`: no two rows share
a (source, run_time) key. -/
def runsUnique (st : Store) : Prop :=
  st.runs.Pairwise (fun a b => ¬ runKeyClash a b)

/-- The uniqueness invariant of `weather_grid_data`: no two rows share a
(run_id, forecast_hour, parameter) key. -/
def slicesUnique (st : Store) : Prop :=
  st.slices.Pairwise (fun a b => ¬ sliceKeyClash a b)

instance (st : Store) : Decidable (runsUnique st) := by
  unfold runsUnique; infer_instance

instance (st : Store) : Decidable (slicesUnique st) := by
  unfold slicesUnique; infer_instance

/-- Modelled from the spec: `beginRun(source, runTime, resolution, bbox)
-> runId` of §4.1 — fails with `DuplicateRun` if (source, runTime)
already exists (enforced by `UNIQUE(source, run_time)` in the schema),
otherwise inserts a fresh `ingesting` run. -/
def beginRun (st : Store) (source : String) (runTime : Nat) (resolution : Rat)
    (bbox : BBox) : Except StoreError (Store × Nat) :=
  if st.runs.any (fun r => r.source = source && r.runTime = runTime) then
    Except.error StoreError.DuplicateRun
  else
    Except.ok
      ({ runs := { runId := st.nextId, source := source, runTime := runTime,
                   status := RunStatus.ingesting, resolution := resolution,
                   bbox := bbox, forecastHoursRec := [] } :: st.runs
         slices := st.slices
         nextId := st.nextId + 1 }, st.nextId)

/-- Modelled from the spec: `writeSlice(runId, forecastHour, parameter,
lats, lons, data)` of §4.1 — fails with `UnknownRun` if `runId` is not an
`ingesting` run, with `InvalidShape` if the data dimensions disagree with
the axis lengths, with `DuplicateSlice` if the `UNIQUE(run_id,
forecast_hour, parameter)` key already exists (slices are immutable once
written), and otherwise compresses and persists the slice. -/
def writeSlice (st : Store) (runId forecastHour : Nat) (parameter : String)
    (x : GridSliceRaw) : Except StoreError Store :=
  match st.runs.find? (fun r => r.runId = runId) with
  | none => Except.error StoreError.UnknownRun
  | some r =>
    if r.status ≠ RunStatus.ingesting then
      Except.error StoreError.UnknownRun
    else if x.data.length ≠ x.lats.length * x.lons.length then
      Except.error StoreError.InvalidShape
    else if st.slices.any (fun s =>
        s.runId = runId && s.forecastHour = forecastHour && s.parameter = parameter) then
      Except.error StoreError.DuplicateSlice
    else
      Except.ok
        { st with slices :=
            { runId := runId, forecastHour := forecastHour, parameter := parameter,
              slice := compressSlice x } :: st.slices }

/-- Modelled from the spec: `completeRun(runId, forecastHours[])` of §4.1
— sets the run `complete`, records the available hours, and atomically
marks all prior `complete` runs of the same source as `superseded`; fails
with `UnknownRun` if `runId` is not an `ingesting` run. -/
def completeRun (st : Store) (runId : Nat) (hours : List Nat) :
    Except StoreError Store :=
  match st.runs.find? (fun r => r.runId = runId) with
  | none => Except.error StoreError.UnknownRun
  | some r =>
    if r.status ≠ RunStatus.ingesting then
      Except.error StoreError.UnknownRun
    else
      Except.ok
        { st with runs := st.runs.map (fun q =>
            if q.runId = runId then
              { q with status := RunStatus.complete, forecastHoursRec := hours }
            else if q.source = r.source ∧ q.status = RunStatus.complete then
              { q with status := RunStatus.superseded }
            else q) }

/-- Modelled from the spec: `failRun(runId, reason)` of §4.1 — moves the
run to the terminal `failed` state. -/
def failRun (st : Store) (runId : Nat) : Except StoreError Store :=
  match st.runs.find? (fun r => r.runId = runId) with
  | none => Except.error StoreError.UnknownRun
  | some _ =>
    Except.ok
      { st with runs := st.runs.map (fun q =>
          if q.runId = runId then { q with status := RunStatus.failed } else q) }

/-- Modelled from the spec: `readSlice(runId, forecastHour, parameter) ->
GridSlice | NotFound` of §4.1, decompressing the stored blob. -/
def readSlice (st : Store) (runId forecastHour : Nat) (parameter : String) :
    Except StoreError GridSliceRaw :=
  match st.slices.find? (fun s =>
      s.runId = runId && s.forecastHour = forecastHour && s.parameter = parameter) with
  | none => Except.error StoreError.NotFound
  | some s => decompressSlice s.slice

/-- Deletion of a forecast run with its cascade: `run_id INTEGER NOT NULL
REFERENCES weather_forecast_runs(id) ON DELETE CASCADE` in
`001_weather_tables.sql` deletes exactly the `weather_grid_data` rows
owned by the deleted run. -/
def deleteRun (st : Store) (runId : Nat) : Store :=
  { runs := st.runs.filter (fun r => r.runId ≠ runId)
    slices := st.slices.filter (fun s => s.runId ≠ runId)
    nextId := st.nextId }

/-- The operations of the weather store (§4.1 plus the SQL cascade). -/
inductive StoreOp where
  | opBeginRun (source : String) (runTime : Nat) (resolution : Rat) (bbox : BBox)
  | opWriteSlice (runId forecastHour : Nat) (parameter : String) (x : GridSliceRaw)
  | opCompleteRun (runId : Nat) (hours : List Nat)
  | opFailRun (runId : Nat)
  | opDeleteRun (runId : Nat)
  deriving DecidableEq, Repr

/-- State transition of one store operation; a failing operation leaves
the store unchanged (transactional semantics of the SQL layer). -/
def applyOp (op : StoreOp) (st : Store) : Store :=
  match op with
  | StoreOp.opBeginRun source runTime resolution bbox =>
    match beginRun st source runTime resolution bbox with
    | Except.ok (st', _) => st'
    | Except.error _ => st
  | StoreOp.opWriteSlice runId forecastHour parameter x =>
    match writeSlice st runId forecastHour parameter x with
    | Except.ok st' => st'
    | Except.error _ => st
  | StoreOp.opCompleteRun runId hours =>
    match completeRun st runId hours with
    | Except.ok st' => st'
    | Except.error _ => st
  | StoreOp.opFailRun runId =>
    match failRun st runId with
    | Except.ok st' => st'
    | Except.error _ => st
  | StoreOp.opDeleteRun runId => deleteRun st runId

/-- Modelled from the spec: the hull/engine parameters of §4.3 folded into
coefficients of the resistance terms — a calm-water coefficient from
length, beam, draft and deadweight, quadratic added-resistance
coefficients for wind and waves, the specific fuel consumption at rated
power, and the configured maximum speed. -/
structure CostModelParams where
  calmCoeff : Rat
  windCoeff : Rat
  waveCoeff : Rat
  sfoc : Rat
  maxSpeedKts : Rat
  deriving DecidableEq, Repr

/-- Local weather seen by one edge, with directions pre-resolved against
the vessel heading: the wind magnitude with the cosine of its relative
encounter angle (1 = dead ahead), the significant wave height with its
encounter cosine, and the current component along the track. -/
structure EdgeWeather where
  windSpeed : Rat
  windCosEnc : Rat
  waveHs : Rat
  waveCosEnc : Rat
  currentAlong : Rat
  deriving DecidableEq, Repr

/-- Result record of `edgeCost` (§4.3): fuel rate, power and achieved
speed over ground. -/
structure EdgeCostResult where
  fuelMtPerHr : Rat
  powerKw : Rat
  speedOverGroundKts : Rat
  deriving DecidableEq, Repr

/-- Modelled from the spec: calm-water resistance from the folded hull
coefficient, quadratic in speed, reduced in ballast (§4.3). -/
def calmResistance (p : CostModelParams) (speedKts : Rat) (isLaden : Bool) : Rat :=
  (if isLaden then p.calmCoeff else p.calmCoeff / 2) * speedKts ^ 2

/-- Modelled from the spec: added wind resistance as a function of the
relative encounter angle — quadratic in the adverse (head-on) wind
component, zero for following wind (§4.3). -/
def addedWindResistance (p : CostModelParams) (w : EdgeWeather) : Rat :=
  p.windCoeff * (max 0 (w.windSpeed * w.windCosEnc)) ^ 2

/-- Modelled from the spec: added wave resistance, quadratic in
significant wave height and scaled by the adverse part of the encounter
cosine (§4.3). -/
def addedWaveResistance (p : CostModelParams) (w : EdgeWeather) : Rat :=
  p.waveCoeff * w.waveHs ^ 2 * max 0 w.waveCosEnc

/-- Modelled from the spec: `edgeCost(speedKts, headingDeg, isLaden,
wind, wave, current) -> {fuelMt, powerKw, speedOverGroundKts}` (§4.3).
Wind and wave enter as added resistance; the current is applied as a
vector addition to ground speed, not as added resistance.  Fails with
`InvalidSpeed` outside the domain `0 < speed < maxSpeedKts`.  The
`headingDeg` argument is kept for signature fidelity; the encounter
cosines of `EdgeWeather` are already relative to it. -/
def edgeCost (p : CostModelParams) (speedKts headingDeg : Rat) (isLaden : Bool)
    (w : EdgeWeather) : Except StoreError EdgeCostResult :=
  if speedKts ≤ 0 ∨ p.maxSpeedKts ≤ speedKts then
    Except.error StoreError.InvalidSpeed
  else
    let rTotal := calmResistance p speedKts isLaden +
      addedWindResistance p w + addedWaveResistance p w
    let power := rTotal * speedKts
    Except.ok
      { fuelMtPerHr := power * p.sfoc
        powerKw := power
        speedOverGroundKts := speedKts + w.currentAlong }

/-- Fuel rate of an `edgeCost` result, zero on error. -/
def fuelOf (e : Except StoreError EdgeCostResult) : Rat :=
  match e with
  | Except.ok r => r.fuelMtPerHr
  | Except.error _ => 0

/-- Speed over ground of an `edgeCost` result, zero on error. -/
def sogOf (e : Except StoreError EdgeCostResult) : Rat :=
  match e with
  | Except.ok r => r.speedOverGroundKts
  | Except.error _ => 0

/-- Status record returned by the forecast status poll
(`getForecastStatus`, consumed in `ForecastTimeline.tsx` lines 60-64). -/
structure ForecastStatus where
  cached_hours : Nat
  total_hours : Nat
  run_date : String
  run_hour : Nat
  complete : Bool
  deriving DecidableEq, Repr

/-- The completion test of `poll` in `startPrefetch`
(`ForecastTimeline.tsx` line 64):
`status.complete || status.cached_hours === status.total_hours`. -/
def pollComplete (s : ForecastStatus) : Bool :=
  s.complete || s.cached_hours == s.total_hours

/-- Observable events of the forecast-timeline client: a status poll
returning `s`, and the single call site of `loadAllFrames` (the bulk
`getForecastFrames` request, `ForecastTimeline.tsx` line 70). -/
inductive ClientEvent where
  | pollReturned (s : ForecastStatus)
  | loadAllFramesCalled
  deriving DecidableEq, Repr

/-- One iteration of `poll` (`ForecastTimeline.tsx` lines 57-75): the
status is recorded, and only inside the completion branch is
`loadAllFrames` invoked. -/
def pollStepEvents (s : ForecastStatus) : List ClientEvent :=
  ClientEvent.pollReturned s ::
    (if pollComplete s then [ClientEvent.loadAllFramesCalled] else [])

/-- Event trace of the prefetch-and-poll loop of `startPrefetch`
(`ForecastTimeline.tsx` lines 48-97) over the statuses returned by
successive polls; on completion the interval is cleared and polling
stops. -/
def prefetchTrace : List ForecastStatus → List ClientEvent
  | [] => []
  | s :: rest =>
    pollStepEvents s ++ (if pollComplete s then [] else prefetchTrace rest)

/-- `FORECAST_HOURS` (`ForecastTimeline.tsx` line 13):
`Array.from({length: 41}, (_, i) => i * 3)`, i.e. 0,3,6,...,120. -/
def FORECAST_HOURS : List Nat := (List.range 41).map (fun i => i * 3)

/-- Initial `loadProgress` state (`ForecastTimeline.tsx` line 28):
`{ cached: 0, total: 41 }`. -/
def loadProgressInit : Nat × Nat := (0, 41)

/-- The value set of an HTML range input with the given `min`, `max` and
`step` attributes; the timeline slider (`ForecastTimeline.tsx` lines
227-229) has min 0, max 120, step 3. -/
def sliderValues (lo hi step : Nat) : List Nat :=
  (List.range ((hi - lo) / step + 1)).map (fun i => lo + i * step)

/-- Modelled from the spec: the orchestrator's `totalHours` when the full
0..120h step-3 planning horizon is covered (§8 scenario
`cachedHours=41, totalHours=41`), one per frontend forecast hour. -/
def statusTotalHours : Nat := FORECAST_HOURS.length

/-- One fuel scenario as served by `/api/scenarios`
(`FuelScenario` in `src/frontend/lib` api definitions). -/
structure FuelScenario where
  name : String
  fuel_mt : Rat
  power_kw : Rat
  conditions : String
  deriving DecidableEq, Repr

/-- One point of the fuel-breakdown bar chart. -/
structure FuelChartPoint where
  name : String
  calm_water : Rat
  wind : Rat
  waves : Rat
  deriving DecidableEq, Repr

/-- The `chartData` entry built from a route result
(`src/unnamed/part_002` lines 85-94): fixed shares 0.6 / 0.25 / 0.15 of
`total_fuel_mt`. -/
def routeChartPoint (total_fuel_mt : Rat) : FuelChartPoint :=
  { name := "Route Fuel"
    calm_water := total_fuel_mt * 0.6
    wind := total_fuel_mt * 0.25
    waves := total_fuel_mt * 0.15 }

/-- The `chartData` entry built per scenario on the fuel-analysis page
(`src/frontend/app/fuel-analysis/page.tsx` lines 31-36). -/
def scenarioChartPoint (s : FuelScenario) : FuelChartPoint :=
  { name := (s.name.replace " (Laden)" "").replace " (Ballast)" ""
    calm_water := s.fuel_mt * 0.6
    wind := s.fuel_mt * 0.25
    waves := s.fuel_mt * 0.15 }

/-- A JavaScript number that arose from arithmetic on finite inputs:
either a finite value or one of the non-finite results `NaN`,
`Infinity`, `-Infinity`. -/
inductive JSNum where
  | finite (q : Rat)
  | nan
  | posInf
  | negInf
  deriving DecidableEq, Repr

/-- JavaScript `Number.isFinite`. -/
def JSNum.isFinite : JSNum → Bool
  | JSNum.finite _ => true
  | _ => false

/-- JavaScript division of finite operands: division by zero yields `NaN`
for `0 / 0` and `±Infinity` otherwise. -/
def jsDiv (a b : Rat) : JSNum :=
  if b = 0 then
    if a = 0 then JSNum.nan
    else if 0 < a then JSNum.posInf
    else JSNum.negInf
  else JSNum.finite (a / b)

/-- Multiplication of a JavaScript number by the positive constant 100,
as applied to the impact ratio. -/
def jsTimes100 : JSNum → JSNum
  | JSNum.finite q => JSNum.finite (q * 100)
  | JSNum.nan => JSNum.nan
  | JSNum.posInf => JSNum.posInf
  | JSNum.negInf => JSNum.negInf

/-- The impact value computed by `ImpactRow`
(`fuel-analysis/page.tsx` line 164):
`((actual - baseline) / baseline) * 100`, with no guard on `baseline`. -/
def impactValue (actual baseline : Rat) : JSNum :=
  jsTimes100 (jsDiv (actual - baseline) baseline)

/-- The baseline the fuel-analysis page passes to every `ImpactRow`
(`fuel-analysis/page.tsx` line 75): `scenarios[0]?.fuel_mt || 0`. -/
def pageBaseline (scenarios : List FuelScenario) : Rat :=
  ((scenarios.get? 0).map (fun s => s.fuel_mt)).getD 0

/-- The actual value the fuel-analysis page passes
(`fuel-analysis/page.tsx` lines 76-86): `scenarios[idx]?.fuel_mt || 0`. -/
def pageActual (scenarios : List FuelScenario) (idx : Nat) : Rat :=
  ((scenarios.get? idx).map (fun s => s.fuel_mt)).getD 0

/-- JavaScript truncation toward zero, the quotient underlying the `%`
operator. -/
def jsTrunc (q : Rat) : Int :=
  if 0 ≤ q then ⌊q⌋ else ⌈q⌉

/-- JavaScript remainder `a % b` on finite operands with `b ≠ 0`. -/
def jsMod (a b : Rat) : Rat :=
  a - b * (jsTrunc (a / b) : Int)

/-- `formatDuration` (`src/frontend/lib/utils.ts` lines 24-32):
`days = Math.floor(hours / 24)`, `remainingHours = Math.floor(hours % 24)`,
rendered as `"<days>d <remainingHours>h"` when `days > 0` and
`"<remainingHours>h"` otherwise. -/
def formatDuration (hours : Rat) : String :=
  let days : Int := ⌊hours / 24⌋
  let remainingHours : Int := ⌊jsMod hours 24⌋
  if days > 0 then
    toString days ++ "d " ++ toString remainingHours ++ "h"
  else
    toString remainingHours ++ "h"

/-- A sample bounding box for concrete evaluations. -/
def demoBBox : BBox :=
  { lat_min := 0, lat_max := 1, lon_min := 0, lon_max := 1 }

/-- A sample complete run. -/
def demoRun : RunRec :=
  { runId := 0, source := "gfs", runTime := 12, status := RunStatus.complete,
    resolution := 1, bbox := demoBBox, forecastHoursRec := [] }

/-- A sample ingesting run of the same source at a later cycle. -/
def demoRunIng : RunRec :=
  { runId := 1, source := "gfs", runTime := 18, status := RunStatus.ingesting,
    resolution := 1, bbox := demoBBox, forecastHoursRec := [] }

/-- A store holding the single complete sample run. -/
def demoStore : Store :=
  { runs := [demoRun], slices := [], nextId := 1 }

/-- A store holding the single ingesting sample run. -/
def demoStoreIng : Store :=
  { runs := [demoRunIng], slices := [], nextId := 2 }

/-- A sample raw 2x1 grid slice. -/
def demoRaw : GridSliceRaw :=
  { lats := [1, 2], lons := [3], data := [10, 11] }

/-- A sample slice owned by run 0. -/
def demoSliceA : SliceRec :=
  { runId := 0, forecastHour := 0, parameter := "wind_u",
    slice := compressSlice demoRaw }

/-- A sample slice owned by run 1. -/
def demoSliceB : SliceRec :=
  { runId := 1, forecastHour := 0, parameter := "wind_u",
    slice := compressSlice demoRaw }

/-- A store with two runs and one slice per run. -/
def demoStore2 : Store :=
  { runs := [demoRun, demoRunIng], slices := [demoSliceA, demoSliceB], nextId := 2 }

theorem decompressRaw_compress (l : List Nat) : decompressRaw (compress l) = l := by
  induction l with
  | nil => rfl
  | cons x xs ih =>
    simp only [compress]
    cases h : compress xs with
    | nil =>
      simp only [decompressRaw, List.replicate, List.nil_append]
      rw [h] at ih
      simpa [decompressRaw] using ih
    | cons p rest =>
      obtain ⟨y, n⟩ := p
      rw [h] at ih
      by_cases hxy : x = y
      · subst hxy
        simp only [if_pos rfl, decompressRaw, List.replicate] at *
        simpa using ih
      · simp only [if_neg hxy, decompressRaw, List.replicate, List.nil_append] at *
        simpa using ih

theorem pairwise_runKey_map (l : List RunRec) (g : RunRec → RunRec)
    (hg : ∀ q, (g q).source = q.source ∧ (g q).runTime = q.runTime)
    (h : l.Pairwise (fun a b => ¬ runKeyClash a b)) :
    (l.map g).Pairwise (fun a b => ¬ runKeyClash a b) := by
  refine List.Pairwise.map g ?_ h
  intro a b hab hclash
  refine hab ⟨?_, ?_⟩
  · rw [← (hg a).1, ← (hg b).1]; exact hclash.1
  · rw [← (hg a).2, ← (hg b).2]; exact hclash.2

theorem beginRun_ok_runsUnique (st : Store) (source : String) (runTime : Nat)
    (resolution : Rat) (bbox : BBox) (st' : Store) (rid : Nat)
    (h : runsUnique st)
    (heq : beginRun st source runTime resolution bbox = Except.ok (st', rid)) :
    runsUnique st' := by
  unfold beginRun at heq
  split at heq
  · simp at heq
  · rename_i hdup
    simp only [Except.ok.injEq, Prod.mk.injEq] at heq
    obtain ⟨heq1, _⟩ := heq
    subst heq1
    unfold runsUnique at *
    refine List.Pairwise.cons ?_ h
    intro r hr hclash
    apply hdup
    rw [List.any_eq_true]
    refine ⟨r, hr, ?_⟩
    simp only [Bool.and_eq_true, decide_eq_true_eq]
    exact ⟨hclash.1.symm, hclash.2.symm⟩

theorem writeSlice_ok_runs (st : Store) (runId forecastHour : Nat)
    (parameter : String) (x : GridSliceRaw) (st' : Store)
    (heq : writeSlice st runId forecastHour parameter x = Except.ok st') :
    st'.runs = st.runs := by
  unfold writeSlice at heq
  split at heq
  · simp at heq
  · split at heq
    · simp at heq
    · split at heq
      · simp at heq
      · split at heq
        · simp at heq
        · simp only [Except.ok.injEq] at heq
          subst heq
          rfl

theorem completeRun_ok_runsUnique (st : Store) (runId : Nat) (hours : List Nat)
    (st' : Store) (h : runsUnique st)
    (heq : completeRun st runId hours = Except.ok st') : runsUnique st' := by
  unfold completeRun at heq
  split at heq
  · simp at heq
  · split at heq
    · simp at heq
    · simp only [Except.ok.injEq] at heq
      subst heq
      unfold runsUnique
      refine pairwise_runKey_map st.runs _ ?_ h
      intro q
      refine ⟨?_, ?_⟩ <;>
        · dsimp only
          split
          · rfl
          · split <;> rfl

theorem failRun_ok_runsUnique (st : Store) (runId : Nat) (st' : Store)
    (h : runsUnique st) (heq : failRun st runId = Except.ok st') :
    runsUnique st' := by
  unfold failRun at heq
  split at heq
  · simp at heq
  · simp only [Except.ok.injEq] at heq
    subst heq
    unfold runsUnique
    refine pairwise_runKey_map st.runs _ ?_ h
    intro q
    refine ⟨?_, ?_⟩ <;>
      · dsimp only
        split <;> rfl

theorem runsUnique_applyOp (st : Store) (op : StoreOp) (h : runsUnique st) :
    runsUnique (applyOp op st) := by
  cases op with
  | opBeginRun source runTime resolution bbox =>
    simp only [applyOp]
    split
    · rename_i st' rid heq
      exact beginRun_ok_runsUnique st source runTime resolution bbox st' rid h heq
    · exact h
  | opWriteSlice runId forecastHour parameter x =>
    simp only [applyOp]
    split
    · rename_i st' heq
      unfold runsUnique
      rw [writeSlice_ok_runs st runId forecastHour parameter x st' heq]
      exact h
    · exact h
  | opCompleteRun runId hours =>
    simp only [applyOp]
    split
    · rename_i st' heq
      exact completeRun_ok_runsUnique st runId hours st' h heq
    · exact h
  | opFailRun runId =>
    simp only [applyOp]
    split
    · rename_i st' heq
      exact failRun_ok_runsUnique st runId st' h heq
    · exact h
  | opDeleteRun runId =>
    unfold applyOp deleteRun runsUnique at *
    exact List.Pairwise.sublist (List.filter_sublist st.runs) h

theorem beginRun_ok_slices (st : Store) (source : String) (runTime : Nat)
    (resolution : Rat) (bbox : BBox) (st' : Store) (rid : Nat)
    (heq : beginRun st source runTime resolution bbox = Except.ok (st', rid)) :
    st'.slices = st.slices := by
  unfold beginRun at heq
  split at heq
  · simp at heq
  · simp only [Except.ok.injEq, Prod.mk.injEq] at heq
    obtain ⟨heq1, _⟩ := heq
    subst heq1
    rfl

theorem writeSlice_ok_slicesUnique (st : Store) (runId forecastHour : Nat)
    (parameter : String) (x : GridSliceRaw) (st' : Store)
    (h : slicesUnique st)
    (heq : writeSlice st runId forecastHour parameter x = Except.ok st') :
    slicesUnique st' := by
  unfold writeSlice at heq
  split at heq
  · simp at heq
  · split at heq
    · simp at heq
    · split at heq
      · simp at heq
      · split at heq
        · simp at heq
        · rename_i hdup
          simp only [Except.ok.injEq] at heq
          subst heq
          unfold slicesUnique at *
          refine List.Pairwise.cons ?_ h
          intro s hs hclash
          apply hdup
          rw [List.any_eq_true]
          refine ⟨s, hs, ?_⟩
          simp only [Bool.and_eq_true, decide_eq_true_eq]
          exact ⟨⟨hclash.1.symm, hclash.2.1.symm⟩, hclash.2.2.symm⟩

theorem writeSlice_ok_slices_superset (st : Store) (runId forecastHour : Nat)
    (parameter : String) (x : GridSliceRaw) (st' : Store)
    (heq : writeSlice st runId forecastHour parameter x = Except.ok st') :
    ∀ s ∈ st.slices, s ∈ st'.slices := by
  unfold writeSlice at heq
  split at heq
  · simp at heq
  · split at heq
    · simp at heq
    · split at heq
      · simp at heq
      · split at heq
        · simp at heq
        · simp only [Except.ok.injEq] at heq
          subst heq
          intro s hs
          exact List.mem_cons_of_mem _ hs

theorem completeRun_ok_slices (st : Store) (runId : Nat) (hours : List Nat)
    (st' : Store) (heq : completeRun st runId hours = Except.ok st') :
    st'.slices = st.slices := by
  unfold completeRun at heq
  split at heq
  · simp at heq
  · split at heq
    · simp at heq
    · simp only [Except.ok.injEq] at heq
      subst heq
      rfl

theorem failRun_ok_slices (st : Store) (runId : Nat) (st' : Store)
    (heq : failRun st runId = Except.ok st') : st'.slices = st.slices := by
  unfold failRun at heq
  split at heq
  · simp at heq
  · simp only [Except.ok.injEq] at heq
    subst heq
    rfl

theorem slicesUnique_applyOp (st : Store) (op : StoreOp) (h : slicesUnique st) :
    slicesUnique (applyOp op st) := by
  cases op with
  | opBeginRun source runTime resolution bbox =>
    simp only [applyOp]
    split
    · rename_i st' rid heq
      unfold slicesUnique
      rw [beginRun_ok_slices st source runTime resolution bbox st' rid heq]
      exact h
    · exact h
  | opWriteSlice runId forecastHour parameter x =>
    simp only [applyOp]
    split
    · rename_i st' heq
      exact writeSlice_ok_slicesUnique st runId forecastHour parameter x st' h heq
    · exact h
  | opCompleteRun runId hours =>
    simp only [applyOp]
    split
    · rename_i st' heq
      unfold slicesUnique
      rw [completeRun_ok_slices st runId hours st' heq]
      exact h
    · exact h
  | opFailRun runId =>
    simp only [applyOp]
    split
    · rename_i st' heq
      unfold slicesUnique
      rw [failRun_ok_slices st runId st' heq]
      exact h
    · exact h
  | opDeleteRun runId =>
    unfold applyOp deleteRun slicesUnique at *
    exact List.Pairwise.sublist (List.filter_sublist st.slices) h

/-- C1: for every forecast source and model run time, at most one
forecast run exists in the weather store with that (source, run time)
key; `beginRun(source, runTime, resolution, bbox)` fails with
`DuplicateRun` whenever a run for that (source, runTime) already exists,
and every operation preserves this uniqueness. -/
theorem beginRun_duplicate_and_run_key_unique (st : Store) (op : StoreOp)
    (h : runsUnique st) :
    runsUnique (applyOp op st) ∧
    ∀ source runTime resolution bbox,
      (∃ r ∈ st.runs, r.source = source ∧ r.runTime = runTime) →
      beginRun st source runTime resolution bbox =
        Except.error StoreError.DuplicateRun := by
  refine ⟨runsUnique_applyOp st op h, ?_⟩
  rintro source runTime resolution bbox ⟨r, hr, h1, h2⟩
  unfold beginRun
  rw [if_pos]
  rw [List.any_eq_true]
  exact ⟨r, hr, by simp [h1, h2]⟩

/-- Witness for C1 at a concrete store holding a complete `gfs` run for
cycle 12. -/
theorem beginRun_duplicate_and_run_key_unique_witness :
    beginRun demoStore "gfs" 12 1 demoBBox =
      Except.error StoreError.DuplicateRun :=
  (beginRun_duplicate_and_run_key_unique demoStore (StoreOp.opFailRun 0)
      (by decide)).2 "gfs" 12 1 demoBBox ⟨demoRun, by decide, rfl, rfl⟩

/-- C2: for every forecast run, forecast hour and parameter name, at most
one GridSlice record exists in the weather store with that (run, forecast
hour, parameter) key, and every operation — in particular `writeSlice` —
preserves this uniqueness. -/
theorem grid_slice_key_unique_preserved (st : Store) (op : StoreOp)
    (h : slicesUnique st) :
    slicesUnique (applyOp op st) ∧
    ∀ runId forecastHour parameter x st',
      writeSlice st runId forecastHour parameter x = Except.ok st' →
      slicesUnique st' := by
  refine ⟨slicesUnique_applyOp st op h, ?_⟩
  intro runId forecastHour parameter x st' heq
  exact writeSlice_ok_slicesUnique st runId forecastHour parameter x st' h heq

/-- Witness for C2: writing a fresh slice into a store with an ingesting
run keeps the slice keys unique. -/
theorem grid_slice_key_unique_preserved_witness :
    slicesUnique (applyOp (StoreOp.opWriteSlice 1 0 "wind_u" demoRaw) demoStoreIng) :=
  (grid_slice_key_unique_preserved demoStoreIng
    (StoreOp.opWriteSlice 1 0 "wind_u" demoRaw) (by decide)).1

/-- C5: deleting a forecast run deletes exactly the GridSlice records
owned by that run and no others — after the cascading deletion no slice
referencing the run remains, every slice of any other run is unchanged,
nothing new appears, and no operation other than run deletion removes a
slice. -/
theorem deleteRun_cascade_frame (st : Store) (rid : Nat) (op : StoreOp)
    (hop : ∀ r, op ≠ StoreOp.opDeleteRun r) :
    (∀ s ∈ (deleteRun st rid).slices, s.runId ≠ rid) ∧
    (∀ s ∈ st.slices, s.runId ≠ rid → s ∈ (deleteRun st rid).slices) ∧
    (∀ s ∈ (deleteRun st rid).slices, s ∈ st.slices) ∧
    (∀ s ∈ st.slices, s ∈ (applyOp op st).slices) := by
  refine ⟨?_, ?_, ?_, ?_⟩
  · intro s hs
    rw [deleteRun, List.mem_filter] at hs
    simpa using hs.2
  · intro s hs hne
    rw [deleteRun, List.mem_filter]
    exact ⟨hs, by simpa using hne⟩
  · intro s hs
    rw [deleteRun, List.mem_filter] at hs
    exact hs.1
  · cases op with
    | opBeginRun source runTime resolution bbox =>
      simp only [applyOp]
      split
      · rename_i st' nid heq
        rw [beginRun_ok_slices st source runTime resolution bbox st' nid heq]
        intro s hs; exact hs
      · intro s hs; exact hs
    | opWriteSlice runId forecastHour parameter x =>
      simp only [applyOp]
      split
      · rename_i st' heq
        exact writeSlice_ok_slices_superset st runId forecastHour parameter x st' heq
      · intro s hs; exact hs
    | opCompleteRun runId hours =>
      simp only [applyOp]
      split
      · rename_i st' heq
        rw [completeRun_ok_slices st runId hours st' heq]
        intro s hs; exact hs
      · intro s hs; exact hs
    | opFailRun runId =>
      simp only [applyOp]
      split
      · rename_i st' heq
        rw [failRun_ok_slices st runId st' heq]
        intro s hs; exact hs
      · intro s hs; exact hs
    | opDeleteRun runId => exact absurd rfl (hop runId)

/-- Witness for C5: in a store with slices of runs 0 and 1, deleting run
0 keeps run 1's slice. -/
theorem deleteRun_cascade_frame_witness :
    demoSliceB ∈ (deleteRun demoStore2 0).slices :=
  (deleteRun_cascade_frame demoStore2 0 (StoreOp.opFailRun 5)
      (fun _ h => StoreOp.noConfusion h)).2.1 demoSliceB (by decide) (by decide)

/-- C6: for every grid slice (float32 lats, lons and data given by bit
patterns), `decompress(compress(x)) == x` bit-for-bit, and decompression
of any stored record reproduces the recorded (rows, cols) shape exactly
or fails with `CorruptData`. -/
theorem decompress_compress_roundtrip (x : GridSliceRaw) (s : GridSliceStored)
    (h : x.data.length = x.lats.length * x.lons.length) :
    decompressSlice (compressSlice x) = Except.ok x ∧
    ((decompressSlice s = Except.error StoreError.CorruptData) ∨
      ∃ y, decompressSlice s = Except.ok y ∧ y.lats.length = s.shape_rows ∧
        y.lons.length = s.shape_cols ∧
        y.data.length = s.shape_rows * s.shape_cols) := by
  constructor
  · simp [decompressSlice, compressSlice, decompressRaw_compress, h]
  · simp only [decompressSlice]
    by_cases hc : (decompressRaw s.lats).length = s.shape_rows ∧
        (decompressRaw s.lons).length = s.shape_cols ∧
        (decompressRaw s.data).length = s.shape_rows * s.shape_cols
    · right
      exact ⟨{ lats := decompressRaw s.lats, lons := decompressRaw s.lons,
               data := decompressRaw s.data },
        by rw [if_pos hc], hc.1, hc.2.1, hc.2.2⟩
    · left
      rw [if_neg hc]

/-- Witness for C6 at a concrete 2x1 slice. -/
theorem decompress_compress_roundtrip_witness :
    decompressSlice (compressSlice demoRaw) = Except.ok demoRaw :=
  (decompress_compress_roundtrip demoRaw (compressSlice demoRaw) (by decide)).1

/-- C7: for fixed speed, heading and loading condition, the fuel rate
returned by `edgeCost` is monotonically non-decreasing in adverse wind
and wave magnitude — increasing headwind speed or wave height at fixed
heading and speed-over-ground never decreases the computed fuel rate. -/
theorem edgeCost_fuel_monotone (p : CostModelParams) (speed heading : Rat)
    (laden : Bool) (ws1 ws2 hs1 hs2 cw cv cur : Rat)
    (hspeed : 0 < speed) (hmax : speed < p.maxSpeedKts)
    (hwc : 0 ≤ p.windCoeff) (hvc : 0 ≤ p.waveCoeff) (hsf : 0 ≤ p.sfoc)
    (hcw : 0 ≤ cw) (hws1 : 0 ≤ ws1) (hws : ws1 ≤ ws2)
    (hhs1 : 0 ≤ hs1) (hhs : hs1 ≤ hs2) :
    fuelOf (edgeCost p speed heading laden ⟨ws1, cw, hs1, cv, cur⟩) ≤
      fuelOf (edgeCost p speed heading laden ⟨ws2, cw, hs2, cv, cur⟩) ∧
    sogOf (edgeCost p speed heading laden ⟨ws1, cw, hs1, cv, cur⟩) =
      sogOf (edgeCost p speed heading laden ⟨ws2, cw, hs2, cv, cur⟩) := by
  have hcond : ¬(speed ≤ 0 ∨ p.maxSpeedKts ≤ speed) := by
    push_neg
    exact ⟨hspeed, hmax⟩
  constructor
  · simp only [edgeCost, if_neg hcond, fuelOf]
    have hw : addedWindResistance p ⟨ws1, cw, hs1, cv, cur⟩ ≤
        addedWindResistance p ⟨ws2, cw, hs2, cv, cur⟩ := by
      unfold addedWindResistance
      dsimp only
      refine mul_le_mul_of_nonneg_left ?_ hwc
      refine pow_le_pow_left (le_max_left 0 _) ?_ 2
      exact max_le_max le_rfl (mul_le_mul_of_nonneg_right hws hcw)
    have hv : addedWaveResistance p ⟨ws1, cw, hs1, cv, cur⟩ ≤
        addedWaveResistance p ⟨ws2, cw, hs2, cv, cur⟩ := by
      unfold addedWaveResistance
      dsimp only
      refine mul_le_mul_of_nonneg_right ?_ (le_max_left 0 cv)
      exact mul_le_mul_of_nonneg_left (pow_le_pow_left hhs1 hhs 2) hvc
    refine mul_le_mul_of_nonneg_right ?_ hsf
    refine mul_le_mul_of_nonneg_right ?_ (le_of_lt hspeed)
    exact add_le_add (add_le_add le_rfl hw) hv
  · simp only [edgeCost, if_neg hcond, sogOf]

/-- Witness for C7 at concrete parameters: calm vs 5 m/s headwind and
2 m head seas at 10 kts never lowers the fuel rate. -/
theorem edgeCost_fuel_monotone_witness :
    fuelOf (edgeCost ⟨1, 1, 1, 1, 20⟩ 10 0 true ⟨0, 1, 0, 1, 0⟩) ≤
      fuelOf (edgeCost ⟨1, 1, 1, 1, 20⟩ 10 0 true ⟨5, 1, 2, 1, 0⟩) :=
  (edgeCost_fuel_monotone ⟨1, 1, 1, 1, 20⟩ 10 0 true 0 5 0 2 1 1 0
    (by norm_num) (by norm_num) (by norm_num) (by norm_num) (by norm_num)
    (by norm_num) (by norm_num) (by norm_num) (by norm_num) (by norm_num)).1

/-- C3: in the forecast-timeline client, the bulk frames request is never
issued before some status poll has returned `complete == true` or
`cached_hours == total_hours` — wherever `loadAllFrames` occurs in the
trace of the prefetch-and-poll loop, an earlier poll result satisfies the
completion condition. -/
theorem bulkFrames_only_after_complete_poll (polls : List ForecastStatus)
    (pre post : List ClientEvent)
    (heq : prefetchTrace polls = pre ++ ClientEvent.loadAllFramesCalled :: post) :
    ∃ s, ClientEvent.pollReturned s ∈ pre ∧ pollComplete s = true := by
  induction polls generalizing pre post with
  | nil =>
    simp only [prefetchTrace] at heq
    exact absurd heq.symm (List.append_ne_nil_of_right_ne_nil pre (by simp))
  | cons s rest ih =>
    by_cases hc : pollComplete s = true
    · simp only [prefetchTrace, pollStepEvents, if_pos hc, List.cons_append,
        List.nil_append, List.append_nil] at heq
      cases pre with
      | nil => simp at heq
      | cons a pre1 =>
        simp only [List.cons_append, List.cons.injEq] at heq
        refine ⟨s, ?_, hc⟩
        rw [← heq.1]
        exact List.mem_cons_self _ _
    · simp only [prefetchTrace, pollStepEvents, if_neg hc, List.cons_append,
        List.nil_append] at heq
      cases pre with
      | nil => simp at heq
      | cons a pre1 =>
        simp only [List.cons_append, List.cons.injEq] at heq
        obtain ⟨s', hmem, hcomp⟩ := ih pre1 post heq.2
        exact ⟨s', List.mem_cons_of_mem _ hmem, hcomp⟩

/-- Witness for C3: a two-poll trace whose second poll reports complete. -/
theorem bulkFrames_only_after_complete_poll_witness :
    ∃ s, ClientEvent.pollReturned s ∈
        [ClientEvent.pollReturned ⟨10, 41, "20260101", 0, false⟩,
         ClientEvent.pollReturned ⟨41, 41, "20260101", 0, true⟩] ∧
      pollComplete s = true :=
  bulkFrames_only_after_complete_poll
    [⟨10, 41, "20260101", 0, false⟩, ⟨41, 41, "20260101", 0, true⟩]
    [ClientEvent.pollReturned ⟨10, 41, "20260101", 0, false⟩,
     ClientEvent.pollReturned ⟨41, 41, "20260101", 0, true⟩]
    [] (by decide)

/-- C4: the forecast-hour offsets over the full planning horizon are
exactly the multiples of 3 up to 120, there are exactly 41 of them, the
client's total frame count is 41, the timeline slider ranges over 0..120
in steps of 3, and the fully covered horizon yields `totalHours = 41`. -/
theorem forecast_hours_horizon :
    FORECAST_HOURS.length = 41 ∧
    (∀ h : Nat, h ∈ FORECAST_HOURS ↔ (h ≤ 120 ∧ h % 3 = 0)) ∧
    sliderValues 0 120 3 = FORECAST_HOURS ∧
    loadProgressInit.2 = FORECAST_HOURS.length ∧
    statusTotalHours = 41 := by
  refine ⟨by decide, ?_, by decide, by decide, by decide⟩
  intro h
  simp only [FORECAST_HOURS, List.mem_map, List.mem_range]
  constructor
  · rintro ⟨i, hi, rfl⟩
    omega
  · rintro ⟨h1, h2⟩
    exact ⟨h / 3, by omega, by omega⟩

/-- C8: the fuel breakdown chart partitions the displayed total fuel into
the fixed shares 0.6 / 0.25 / 0.15, which always sum exactly to the
total, independent of the route's actual weather conditions. -/
theorem chart_fuel_partition (total : Rat) (s : FuelScenario) :
    (routeChartPoint total).calm_water = total * 0.6 ∧
    (routeChartPoint total).wind = total * 0.25 ∧
    (routeChartPoint total).waves = total * 0.15 ∧
    (routeChartPoint total).calm_water + (routeChartPoint total).wind +
      (routeChartPoint total).waves = total ∧
    (scenarioChartPoint s).calm_water + (scenarioChartPoint s).wind +
      (scenarioChartPoint s).waves = s.fuel_mt := by
  refine ⟨rfl, rfl, rfl, ?_, ?_⟩
  · show total * 0.6 + total * 0.25 + total * 0.15 = total
    calc total * 0.6 + total * 0.25 + total * 0.15
        = total * (0.6 + 0.25 + 0.15) := by ring
      _ = total := by norm_num
  · show s.fuel_mt * 0.6 + s.fuel_mt * 0.25 + s.fuel_mt * 0.15 = s.fuel_mt
    calc s.fuel_mt * 0.6 + s.fuel_mt * 0.25 + s.fuel_mt * 0.15
        = s.fuel_mt * (0.6 + 0.25 + 0.15) := by ring
      _ = s.fuel_mt := by norm_num

/-- C9: the impact percentage of `ImpactRow` is
`((actual - baseline) / baseline) * 100` with no guard on the baseline:
for baseline 0 — which the fuel-analysis page passes whenever the
scenario list is empty — the result is never a finite number, and on the
empty scenario list it is `NaN`. -/
theorem impact_unguarded_baseline_zero :
    (∀ actual : Rat, (impactValue actual 0).isFinite = false) ∧
    pageBaseline [] = 0 ∧
    impactValue (pageActual [] 1) (pageBaseline []) = JSNum.nan := by
  refine ⟨?_, rfl, ?_⟩
  · intro actual
    unfold impactValue jsDiv
    rw [if_pos rfl]
    by_cases h0 : actual - 0 = 0
    · rw [if_pos h0]; rfl
    · rw [if_neg h0]
      by_cases hpos : 0 < actual - 0
      · rw [if_pos hpos]; rfl
      · rw [if_neg hpos]; rfl
  · have h1 : pageActual [] 1 = 0 := rfl
    have h2 : pageBaseline [] = 0 := rfl
    rw [h1, h2]
    unfold impactValue jsDiv
    rw [if_pos rfl, if_pos (by norm_num)]
    rfl

theorem floor_jsMod_24 (h : Rat) (h0 : 0 ≤ h) : ⌊jsMod h 24⌋ = ⌊h⌋ % 24 := by
  have h24 : (0 : Rat) < 24 := by norm_num
  set n : Int := ⌊h / 24⌋ with hn
  have htr : jsTrunc (h / 24) = n := by
    unfold jsTrunc
    rw [if_pos (div_nonneg h0 (le_of_lt h24))]
  have hmod : jsMod h 24 = h - ((24 * n : Int) : Rat) := by
    unfold jsMod
    rw [htr]
    push_cast
    ring
  have hfl : ⌊jsMod h 24⌋ = ⌊h⌋ - 24 * n := by
    rw [hmod, Int.floor_sub_int]
  have hb1 : ((n : Rat)) ≤ h / 24 := Int.floor_le _
  have hb2 : h / 24 < n + 1 := Int.lt_floor_add_one _
  have hb1' : (24 * n : Int) ≤ ⌊h⌋ := by
    rw [Int.le_floor]
    push_cast
    rw [le_div_iff h24] at hb1
    linarith
  have hb2' : ⌊h⌋ < 24 * (n + 1) := by
    rw [Int.floor_lt]
    push_cast
    rw [div_lt_iff h24] at hb2
    linarith
  rw [hfl]
  omega

/-- C10: for every non-negative duration, `formatDuration` renders
`"<floor(hours/24)>d <floor(hours) mod 24>h"` when `floor(hours/24) > 0`
and `"<floor(hours) mod 24>h"` otherwise; fractional hours are discarded
by flooring, so every duration strictly below one hour renders as
`"0h"`. -/
theorem formatDuration_floor_spec (hours : Rat) (h0 : 0 ≤ hours) :
    formatDuration hours =
      (if 0 < ⌊hours / 24⌋ then
        toString ⌊hours / 24⌋ ++ "d " ++ toString (⌊hours⌋ % 24) ++ "h"
      else
        toString (⌊hours⌋ % 24) ++ "h") ∧
    (hours < 1 → formatDuration hours = "0h") := by
  constructor
  · simp only [formatDuration, gt_iff_lt]
    rw [floor_jsMod_24 hours h0]
  · intro h1
    have hd : ⌊hours / 24⌋ = 0 := by
      rw [Int.floor_eq_zero_iff]
      constructor
      · exact div_nonneg h0 (by norm_num)
      · rw [div_lt_one (by norm_num)]
        linarith
    have hf : ⌊hours⌋ = 0 := by
      rw [Int.floor_eq_zero_iff]
      exact ⟨h0, by linarith⟩
    simp only [formatDuration, gt_iff_lt]
    rw [floor_jsMod_24 hours h0, hd, hf]
    rfl

/-- Witness for C10: half an hour renders as "0h" and 30 hours as
"1d 6h". -/
theorem formatDuration_floor_spec_witness :
    formatDuration (1 / 2 : Rat) = "0h" ∧ formatDuration (30 : Rat) = "1d 6h" := by
  constructor
  · exact (formatDuration_floor_spec (1 / 2) (by norm_num)).2 (by norm_num)
  · have h := (formatDuration_floor_spec (30 : Rat) (by norm_num)).1
    rw [h]
    norm_num
    rfl
